import Mathlib

/-!
# Verification of the fb-ChargeAI metered gateway core

Shallow embedding of the gateway core of this repository:

* `src/lib/rate-limit.ts` — sliding-window rate limiter over a Redis sorted set;
* `src/app/api/chat/route.ts` — the `/api/chat` route.  The file contains two
  concatenated versions of the handler; the later one (the cached / streaming
  gateway, lines 142–414) is the one modelled here, matching the line numbers
  the development below refers to.

Conventions of the embedding:

* Redis sorted sets are modelled as multisets of integer scores (the random
  member tiebreaker in `rate-limit.ts` makes every added member distinct, so
  only the multiset of scores is observable).
* Currency amounts (wallet balances, costs) are modelled as exact integers in
  the smallest currency unit; no claim below depends on float rounding.
* External collaborators that live outside `src/` (`lib/pricing.calculateCost`,
  `lib/mongodb.getWalletByApiKey` / `updateWalletBalance`, `JSON.parse`, `md5`)
  are parameters of the model; calls to `updateWalletBalance` are recorded as
  explicit ledger effects.
-/

namespace ChargeAI

/-! ## Rate limiter (`src/lib/rate-limit.ts`) -/

/-- `RATE_LIMIT.requests` (60 requests). -/
def RATE_LIMIT_requests : Nat := 60

/-- `RATE_LIMIT.window` (60 seconds). -/
def RATE_LIMIT_window : Int := 60

/-- The record returned by `rateLimit`. -/
structure RLResult where
  success : Bool
  remaining : Nat
  reset : Int
  limit : Nat
deriving DecidableEq

/-- `pipeline.zremrangebyscore(key, 0, now - RATE_LIMIT.window)`: removes
every entry whose score lies in the closed interval `[0, now - 60]`. -/
def purgeOld (now : Int) (entries : List Int) : List Int :=
  entries.filter fun t => !decide (0 ≤ t ∧ t ≤ now - RATE_LIMIT_window)

/-- `rateLimit(userId)` from `src/lib/rate-limit.ts` (success path; the Redis
failure branch fails open and is outside this pure model).  The pipeline runs
purge, `zcard` (counted before the insertion), `zadd now`, `expire` atomically;
the `expire` is redundant here because any entry old enough for the key to
have expired is removed by the purge.  Returns the result together with the
new state of the sorted set.  Note that the new entry is inserted even when
the request is rejected, because the `zadd` is queued before the count is
examined. -/
def rateLimit (entries : List Int) (now : Int) : RLResult × List Int :=
  let purged := purgeOld now entries
  let requestCount := purged.length
  let newEntries := purged ++ [now]
  let resetTime := newEntries.foldl min now + RATE_LIMIT_window
  if RATE_LIMIT_requests ≤ requestCount then
    ({ success := false, remaining := 0, reset := resetTime,
       limit := RATE_LIMIT_requests }, newEntries)
  else
    ({ success := true, remaining := RATE_LIMIT_requests - requestCount,
       reset := resetTime, limit := RATE_LIMIT_requests }, newEntries)

/-- Iterate `rateLimit` `n` times at the same timestamp, collecting the
`success` flags in call order together with the final sorted-set state. -/
def runN : Nat → Int → List Int → List Bool × List Int
  | 0, _, st => ([], st)
  | n + 1, now, st =>
    let r := rateLimit st now
    let rest := runN n now r.2
    (r.1.success :: rest.1, rest.2)

/-- A filter that keeps the repeated element keeps the whole replicate. -/
theorem filter_replicate_pos {α : Type} (p : α → Bool) (a : α) (h : p a = true) :
    ∀ n, (List.replicate n a).filter p = List.replicate n a := by
  intro n
  induction n with
  | zero => rfl
  | succ n ih => simp [List.replicate_succ, List.filter_cons, h, ih]

/-- A filter that drops the repeated element empties the whole replicate. -/
theorem filter_replicate_neg {α : Type} (p : α → Bool) (a : α) (h : p a = false) :
    ∀ n, (List.replicate n a).filter p = ([] : List α) := by
  intro n
  induction n with
  | zero => rfl
  | succ n ih => simp [List.replicate_succ, List.filter_cons, h, ih]

/-- A timestamp survives the purge performed at the same instant (the window
is positive, so `now ≤ now - 60` is impossible). -/
theorem purgeOld_replicate_self {now : Int} (k : Nat) :
    purgeOld now (List.replicate k now) = List.replicate k now := by
  apply filter_replicate_pos
  simp only [Bool.not_eq_true', decide_eq_false_iff_not, RATE_LIMIT_window]
  intro hc
  omega

/-- One `rateLimit` call at timestamp `now` on a window already holding `k`
copies of `now`: all entries survive the purge, the count is `k`, and the new
state holds `k + 1` copies. -/
theorem rateLimit_replicate {now : Int} (k : Nat) :
    rateLimit (List.replicate k now) now =
      if RATE_LIMIT_requests ≤ k then
        ({ success := false, remaining := 0,
           reset := (List.replicate (k + 1) now).foldl min now + RATE_LIMIT_window,
           limit := RATE_LIMIT_requests }, List.replicate (k + 1) now)
      else
        ({ success := true, remaining := RATE_LIMIT_requests - k,
           reset := (List.replicate (k + 1) now).foldl min now + RATE_LIMIT_window,
           limit := RATE_LIMIT_requests }, List.replicate (k + 1) now) := by
  simp only [rateLimit, purgeOld_replicate_self, List.length_replicate,
    ← List.replicate_succ']

/-- Characterisation of `runN` starting from a window of `k` identical
nonnegative timestamps: call number `i` (0-based, counting the `k` earlier
entries) succeeds iff `k + i < 60`, and the final window holds `k + n`
copies. -/
theorem runN_replicate {now : Int} :
    ∀ n k, runN n now (List.replicate k now) =
      ((List.range n).map (fun i => decide (k + i < RATE_LIMIT_requests)),
        List.replicate (k + n) now) := by
  intro n
  induction n with
  | zero => intro k; simp [runN]
  | succ n ih =>
    intro k
    have hr := @rateLimit_replicate now k
    by_cases hk : RATE_LIMIT_requests ≤ k
    · simp only [runN, hr, if_pos hk, ih (k + 1), List.range_succ_eq_map,
        List.map_cons, List.map_map, Prod.mk.injEq, List.cons.injEq]
      refine ⟨⟨?_, ?_⟩, ?_⟩
      · simp only [RATE_LIMIT_requests] at hk ⊢
        symm
        simp only [decide_eq_false_iff_not]
        omega
      · apply List.map_congr_left
        intro i _
        simp only [Function.comp_apply, Nat.succ_eq_add_one]
        have h3 : k + 1 + i = k + (i + 1) := by omega
        rw [h3]
      · congr 1
        omega
    · simp only [runN, hr, if_neg hk, ih (k + 1), List.range_succ_eq_map,
        List.map_cons, List.map_map, Prod.mk.injEq, List.cons.injEq]
      refine ⟨⟨?_, ?_⟩, ?_⟩
      · simp only [RATE_LIMIT_requests] at hk ⊢
        symm
        simp only [decide_eq_true_eq]
        omega
      · apply List.map_congr_left
        intro i _
        simp only [Function.comp_apply, Nat.succ_eq_add_one]
        have h3 : k + 1 + i = k + (i + 1) := by omega
        rw [h3]
      · congr 1
        omega

/-- C5: starting from an empty rate window, 61 `rateLimit` calls within one
second (all at the same floor-second timestamp `now ≥ 0`) succeed on the
first 60 and fail on the 61st; after more than 60 seconds with no further
calls, the next call for that account succeeds again. -/
theorem claim5_sliding_window (now nowLater : Int) (h0 : 0 ≤ now)
    (h1 : now + RATE_LIMIT_window < nowLater) :
    (runN 61 now []).1 = List.replicate 60 true ++ [false] ∧
    ((rateLimit (runN 61 now []).2 nowLater).1).success = true := by
  have h := @runN_replicate now 61 0
  rw [List.replicate_zero] at h
  constructor
  · rw [h]
    dsimp only
    decide
  · rw [h]
    dsimp only
    have hp : purgeOld nowLater (List.replicate (0 + 61) now) = [] := by
      apply filter_replicate_neg
      simp only [Bool.not_eq_false', decide_eq_true_eq, RATE_LIMIT_window] at h1 ⊢
      omega
    simp only [rateLimit, hp, List.length_nil, RATE_LIMIT_requests]
    norm_num

/-- Witness for `claim5_sliding_window` at `now = 100`, `nowLater = 200`. -/
theorem claim5_sliding_window_witness :
    (0 : Int) ≤ 100 ∧ (100 : Int) + RATE_LIMIT_window < 200 ∧
      ((runN 61 100 []).1 = List.replicate 60 true ++ [false] ∧
        ((rateLimit (runN 61 100 []).2 200).1).success = true) :=
  ⟨by decide, by decide, claim5_sliding_window 100 200 (by decide) (by decide)⟩

/-- C6 counterexample: the very first admission for an account (zero entries
survive the purge, so `count = 0`) is allowed and returns `remaining = 60`,
whereas the claim demands `remaining = 60 - count - 1 = 59`. -/
theorem claim6_remaining_counterexample :
    ((rateLimit [] 0).1).success = true ∧
      (purgeOld 0 ([] : List Int)).length = 0 ∧
      ((rateLimit [] 0).1).remaining ≠
        RATE_LIMIT_requests - (purgeOld 0 ([] : List Int)).length - 1 := by
  decide

/-- C6 (amended): for every allowed admission, where `count` is the number of
window entries surviving the purge before the new entry is inserted,
`rateLimit` returns `remaining = 60 - count` (the just-inserted entry is not
subtracted). -/
theorem claim6_remaining_amended (entries : List Int) (now : Int)
    (h : ((rateLimit entries now).1).success = true) :
    ((rateLimit entries now).1).remaining =
      RATE_LIMIT_requests - (purgeOld now entries).length := by
  by_cases hc : RATE_LIMIT_requests ≤ (purgeOld now entries).length
  · simp only [rateLimit, if_pos hc] at h
    simp at h
  · simp only [rateLimit, if_neg hc]

/-- Witness for `claim6_remaining_amended` at an empty window. -/
theorem claim6_remaining_amended_witness :
    ((rateLimit [] 5).1).success = true ∧
      ((rateLimit [] 5).1).remaining =
        RATE_LIMIT_requests - (purgeOld 5 ([] : List Int)).length :=
  ⟨by decide, claim6_remaining_amended [] 5 (by decide)⟩

/-! ## SSE stream re-emitter (`src/app/api/chat/route.ts`, lines 220–238 and
339–358)

Text is modelled as `List Char` so that every operation is structural
recursion (`chunk.split('\n')`, `line.startsWith('data: ')`, `line.slice(6)`
become `splitLines`, a 6-character comparison, and `List.drop 6`).
`JSON.parse` is a platform builtin, so frame parsing is a parameter
`jsonParse`; an `SSEItem` keeps the parsed frame's payload opaque next to its
optional usage record (`lastChunk?.usage`). -/

/-- Token counts reported by the provider; only `total_tokens` is read by the
route. -/
structure Usage where
  prompt_tokens : Nat
  completion_tokens : Nat
  total_tokens : Nat
deriving DecidableEq

/-- A parsed SSE frame: opaque payload plus the optional `usage` field. -/
structure SSEItem where
  payload : String
  usage : Option Usage
deriving DecidableEq

/-- JavaScript `chunk.split('\n')` on the character list of the chunk. -/
def splitLines : List Char → List (List Char)
  | [] => [[]]
  | c :: rest =>
    if c = '\n' then [] :: splitLines rest
    else
      match splitLines rest with
      | [] => [[c]]
      | l :: ls => (c :: l) :: ls

/-- The six characters of the marker `'data: '`. -/
def dataTag : List Char := "data: ".toList

/-- The body of the per-line loop of `parseSSEResponse`: keep a line only if
it starts with `'data: '`, drop the terminal `'[DONE]'` sentinel, and hand
the remainder to `JSON.parse` (a parse failure is logged and skipped). -/
def lineParse (jsonParse : List Char → Option SSEItem) (line : List Char) :
    Option SSEItem :=
  if line.take 6 = dataTag then
    let jsonStr := line.drop 6
    if jsonStr = "[DONE]".toList then none
    else jsonParse jsonStr
  else none

/-- `parseSSEResponse(chunk)` from route.ts lines 220–238. -/
def parseSSEResponse (jsonParse : List Char → Option SSEItem)
    (chunk : List Char) : List SSEItem :=
  (splitLines chunk).filterMap (lineParse jsonParse)

/-- All parsed items of the upstream stream, in arrival order (the `data`
handler runs `parseSSEResponse` on each chunk and iterates the results). -/
def streamItems (jsonParse : List Char → Option SSEItem)
    (chunks : List (List Char)) : List SSEItem :=
  (chunks.map (parseSSEResponse jsonParse)).flatten

/-- One observable event of the re-emitted response: a forwarded frame
(`writer.write('data: ' + JSON.stringify(item))`), a wallet debit
(`updateWalletBalance(wallet.userId, -cost, ...)`), or the terminal
`data: [DONE]` sentinel. -/
inductive StreamEvent where
  | frame (item : SSEItem)
  | debitEv (userId : Option String) (delta : Int) (desc : String)
  | doneMark
deriving DecidableEq

/-- The `end` handler of route.ts lines 351–358: `lastChunk` holds the last
parsed item of the whole stream; if it exists and carries `usage`, a single
debit of `calculateCost(model, usage.total_tokens)` is issued. -/
def endMetering (calculateCost : String → Nat → Int) (model : String)
    (userId : Option String) (items : List SSEItem) : List StreamEvent :=
  match items.getLast? with
  | some it =>
    match it.usage with
    | some u => [StreamEvent.debitEv userId (-(calculateCost model u.total_tokens))
        ("Chat completion (" ++ model ++ ")")]
    | none => []
  | none => []

/-- The full event trace of the streaming branch (route.ts lines 339–358):
every parsed item is forwarded in order as it arrives; when the upstream
stream ends, the metering of `endMetering` runs and then the terminal
sentinel is written. -/
def streamTrace (jsonParse : List Char → Option SSEItem)
    (calculateCost : String → Nat → Int) (model : String)
    (userId : Option String) (chunks : List (List Char)) : List StreamEvent :=
  (streamItems jsonParse chunks).map StreamEvent.frame ++
    endMetering calculateCost model userId (streamItems jsonParse chunks) ++
    [StreamEvent.doneMark]

/-- A frame of the byte stream actually sent to the caller. -/
inductive OutFrame where
  | data (item : SSEItem)
  | doneMark
deriving DecidableEq

/-- Projection of a trace onto the bytes written to the caller (debits are
side effects, not output frames). -/
def outputOf : List StreamEvent → List OutFrame
  | [] => []
  | StreamEvent.frame i :: rest => OutFrame.data i :: outputOf rest
  | StreamEvent.debitEv _ _ _ :: rest => outputOf rest
  | StreamEvent.doneMark :: rest => OutFrame.doneMark :: outputOf rest

/-- Projection of a trace onto its wallet debits. -/
def debitsOf : List StreamEvent → List StreamEvent
  | [] => []
  | StreamEvent.debitEv u d s :: rest => StreamEvent.debitEv u d s :: debitsOf rest
  | StreamEvent.frame _ :: rest => debitsOf rest
  | StreamEvent.doneMark :: rest => debitsOf rest

/-- The well-formed frames of the input, characterised line by line and
independently of chunk boundaries. -/
def wellFormedItems (jsonParse : List Char → Option SSEItem)
    (chunks : List (List Char)) : List SSEItem :=
  ((chunks.map splitLines).flatten).filterMap (lineParse jsonParse)

theorem outputOf_append (xs ys : List StreamEvent) :
    outputOf (xs ++ ys) = outputOf xs ++ outputOf ys := by
  induction xs with
  | nil => rfl
  | cons x rest ih => cases x <;> simp [outputOf, ih]

theorem outputOf_map_frame (items : List SSEItem) :
    outputOf (items.map StreamEvent.frame) = items.map OutFrame.data := by
  induction items with
  | nil => rfl
  | cons x rest ih => simp [outputOf, ih]

theorem outputOf_endMetering (cc : String → Nat → Int) (model : String)
    (uid : Option String) (items : List SSEItem) :
    outputOf (endMetering cc model uid items) = [] := by
  unfold endMetering
  cases items.getLast? with
  | none => rfl
  | some it => cases it with
    | mk p u => cases u <;> rfl

theorem debitsOf_append (xs ys : List StreamEvent) :
    debitsOf (xs ++ ys) = debitsOf xs ++ debitsOf ys := by
  induction xs with
  | nil => rfl
  | cons x rest ih => cases x <;> simp [debitsOf, ih]

theorem debitsOf_map_frame (items : List SSEItem) :
    debitsOf (items.map StreamEvent.frame) = [] := by
  induction items with
  | nil => rfl
  | cons x rest ih => simp [debitsOf, ih]

theorem debitsOf_endMetering (cc : String → Nat → Int) (model : String)
    (uid : Option String) (items : List SSEItem) :
    debitsOf (endMetering cc model uid items) = endMetering cc model uid items := by
  unfold endMetering
  cases items.getLast? with
  | none => rfl
  | some it => cases it with
    | mk p u => cases u <;> rfl

theorem filterMap_flatten {α β : Type} (f : α → Option β) (L : List (List α)) :
    L.flatten.filterMap f = (L.map (fun l => l.filterMap f)).flatten := by
  induction L with
  | nil => rfl
  | cons l ls ih => simp [List.flatten, List.filterMap_append, ih]

/-- The debits of a full stream trace are exactly the end-of-stream
metering events. -/
theorem debitsOf_streamTrace (jsonParse : List Char → Option SSEItem)
    (cc : String → Nat → Int) (model : String) (uid : Option String)
    (chunks : List (List Char)) :
    debitsOf (streamTrace jsonParse cc model uid chunks) =
      endMetering cc model uid (streamItems jsonParse chunks) := by
  unfold streamTrace
  rw [debitsOf_append, debitsOf_append, debitsOf_map_frame, debitsOf_endMetering]
  simp [debitsOf]

/-- A concrete frame parser used to instantiate the stream theorems: it
recognises the payloads `c1`, `c2` (no usage) and `cu` (usage of 7 total
tokens) and fails on everything else. -/
def toyParse : List Char → Option SSEItem := fun s =>
  if s = "cu".toList then
    some { payload := "cu",
           usage := some { prompt_tokens := 3, completion_tokens := 4, total_tokens := 7 } }
  else if s = "c1".toList then some { payload := "c1", usage := none }
  else if s = "c2".toList then some { payload := "c2", usage := none }
  else none

/-- A concrete pricing function: one currency unit per token. -/
def toyCost : String → Nat → Int := fun _ tokens => tokens

/-- C8: the re-emitted output of the streaming branch is exactly the
well-formed frames of the input, in arrival order, followed by exactly one
terminal sentinel; a malformed (unparseable) frame anywhere in the stream is
dropped without aborting or truncating the rest of the stream. -/
theorem claim8_stream_passthrough (jsonParse : List Char → Option SSEItem)
    (cc : String → Nat → Int) (model : String) (uid : Option String)
    (chunks : List (List Char)) :
    outputOf (streamTrace jsonParse cc model uid chunks) =
      (wellFormedItems jsonParse chunks).map OutFrame.data ++ [OutFrame.doneMark] ∧
    (∀ pre bad post, parseSSEResponse jsonParse bad = [] →
      streamTrace jsonParse cc model uid (pre ++ bad :: post) =
        streamTrace jsonParse cc model uid (pre ++ post)) ∧
    (∀ pre bad post, lineParse jsonParse bad = none →
      (pre ++ bad :: post).filterMap (lineParse jsonParse) =
        (pre ++ post).filterMap (lineParse jsonParse)) := by
  refine ⟨?_, ?_, ?_⟩
  · unfold streamTrace
    rw [outputOf_append, outputOf_append, outputOf_map_frame, outputOf_endMetering]
    have hwf : wellFormedItems jsonParse chunks = streamItems jsonParse chunks := by
      unfold wellFormedItems streamItems
      rw [filterMap_flatten, List.map_map]
      rfl
    rw [hwf]
    simp [outputOf]
  · intro pre bad post hbad
    have hitems : streamItems jsonParse (pre ++ bad :: post) =
        streamItems jsonParse (pre ++ post) := by
      simp [streamItems, hbad]
    unfold streamTrace
    rw [hitems]
  · intro pre bad post hbad
    simp [List.filterMap_append, List.filterMap_cons, hbad]

/-- Witness for `claim8_stream_passthrough`: dropping the unparseable frame
`data: zz` from the middle of a concrete stream leaves the trace intact. -/
theorem claim8_stream_passthrough_witness :
    parseSSEResponse toyParse "data: zz".toList = [] ∧
      streamTrace toyParse toyCost "gpt-4o" none
          (["data: c1".toList] ++ "data: zz".toList :: ["data: cu".toList]) =
        streamTrace toyParse toyCost "gpt-4o" none
          (["data: c1".toList] ++ ["data: cu".toList]) :=
  ⟨rfl, (claim8_stream_passthrough toyParse toyCost "gpt-4o" none []).2.1
    ["data: c1".toList] "data: zz".toList ["data: cu".toList] rfl⟩

/-- C7 counterexample: in the stream `[c1, cu, c2]` the frame `cu` carries a
usage record, yet the code issues no debit at all, because `lastChunk` is the
final frame `c2`, which carries none — contradicting the claim that the last
usage-carrying frame is retained and metered. -/
theorem claim7_counterexample :
    ((streamItems toyParse ["data: c1\ndata: cu".toList, "data: c2".toList]).any
        fun it => it.usage.isSome) = true ∧
      debitsOf (streamTrace toyParse toyCost "gpt-4o" (some "user-1")
        ["data: c1\ndata: cu".toList, "data: c2".toList]) = [] := by
  constructor
  · rfl
  · rfl

/-- C7 (amended): the streaming re-emitter retains the last parsed frame of
the stream, whether or not it carries usage; when the stream ends, a single
debit of `calculateCost(model, usage.total_tokens)` is issued, before the
terminal sentinel, iff that final frame carries a usage record `u`; in
particular, if no frame of the stream carries usage, no debit occurs. -/
theorem claim7_streaming_metering (jsonParse : List Char → Option SSEItem)
    (cc : String → Nat → Int) (model : String) (uid : Option String)
    (chunks : List (List Char)) :
    streamTrace jsonParse cc model uid chunks =
      (streamItems jsonParse chunks).map StreamEvent.frame ++
        debitsOf (streamTrace jsonParse cc model uid chunks) ++
        [StreamEvent.doneMark] ∧
    (∀ it u, (streamItems jsonParse chunks).getLast? = some it →
      it.usage = some u →
      debitsOf (streamTrace jsonParse cc model uid chunks) =
        [StreamEvent.debitEv uid (-(cc model u.total_tokens))
          ("Chat completion (" ++ model ++ ")")]) ∧
    (∀ it, (streamItems jsonParse chunks).getLast? = some it →
      it.usage = none →
      debitsOf (streamTrace jsonParse cc model uid chunks) = []) ∧
    ((∀ it ∈ streamItems jsonParse chunks, it.usage = none) →
      debitsOf (streamTrace jsonParse cc model uid chunks) = []) := by
  have hd := debitsOf_streamTrace jsonParse cc model uid chunks
  refine ⟨?_, ?_, ?_, ?_⟩
  · rw [hd]
    rfl
  · intro it u hlast husage
    rw [hd]
    unfold endMetering
    rw [hlast]
    simp [husage]
  · intro it hlast husage
    rw [hd]
    unfold endMetering
    rw [hlast]
    simp [husage]
  · intro hall
    rw [hd]
    unfold endMetering
    cases hlast : (streamItems jsonParse chunks).getLast? with
    | none => rfl
    | some it =>
      have hmem : it ∈ streamItems jsonParse chunks := by
        have hx : it ∈ (streamItems jsonParse chunks).getLast? :=
          Option.mem_def.mpr hlast
        obtain ⟨h, heq⟩ := List.mem_getLast?_eq_getLast hx
        rw [heq]
        exact List.getLast_mem h
      simp [hall it hmem]

/-- Witness for `claim7_streaming_metering`: a stream whose frames never
carry usage produces no debit. -/
theorem claim7_streaming_metering_witness :
    (∀ it ∈ streamItems toyParse ["data: c1".toList], it.usage = none) ∧
      debitsOf (streamTrace toyParse toyCost "gpt-4o" (some "user-1")
        ["data: c1".toList]) = [] :=
  ⟨by decide, (claim7_streaming_metering toyParse toyCost "gpt-4o" (some "user-1")
    ["data: c1".toList]).2.2.2 (by decide)⟩

/-! ## Gateway orchestrator (`src/app/api/chat/route.ts`, lines 272–414)

The handler's external collaborators are fields of `Env`; the shared mutable state
it touches is `GState`; every `updateWalletBalance` call is recorded as an
`Effect`. -/

/-- One chat message of the request body. -/
structure Message where
  role : String
  content : String
deriving DecidableEq

/-- An upstream chat completion body (`response.data`): opaque payload plus
the usage record; the route reads only `usage.total_tokens`. -/
structure Completion where
  payload : String
  usage : Usage
deriving DecidableEq

/-- A wallet document as the route uses it: the optional account id
(`wallet.userId`; `none` stands for an absent or falsy value) and the
prepaid balance in smallest currency units. -/
structure Wallet where
  userId : Option String
  balance : Int
deriving DecidableEq

/-- The information content of `JSON.stringify({messages, model, temperature,
max_tokens})`: the key order is fixed by the object literal and an
`undefined` field is omitted from the output, so the serialised string
determines exactly this tuple (`Option` encodes field absence) and
conversely. -/
abbrev SerReq := List Message × String × Option Int × Option Nat

/-- `generateCacheKey(messages, model, temperature, max_tokens)` (route.ts
lines 194–197): the digest of the canonical serialisation; `md5` is a
platform builtin and therefore a parameter. -/
def generateCacheKey {δ : Type} (md5 : SerReq → δ) (messages : List Message)
    (model : String) (temperature : Option Int) (max_tokens : Option Nat) : δ :=
  md5 (messages, model, temperature, max_tokens)

/-- An upstream (axios) failure: `error.response?.status` and
`error.message`. -/
structure UpErr where
  status : Option Nat
  message : String
deriving DecidableEq

/-- The environment of one request: external collaborators and ambient
values read by the route. -/
structure Env where
  md5 : SerReq → String
  calculateCost : String → Nat → Int
  getWalletByApiKey : String → Option Wallet
  rateLimitOk : String → Bool
  gpt4Dep : Option String
  gpt4oDep : Option String
  gpt35Dep : Option String
  upstreamJson : Except UpErr Completion
  upstreamSSE : Except UpErr (List (List Char))
  sseParse : List Char → Option SSEItem
  nowMs : Nat

/-- `MODEL_DEPLOYMENTS[model]` (route.ts lines 164–168): the three known
model names map to deployment names taken from the environment (each
possibly undefined). -/
def MODEL_DEPLOYMENTS (e : Env) (model : String) : Option String :=
  if model = "gpt-4" then e.gpt4Dep
  else if model = "gpt-4o" then e.gpt4oDep
  else if model = "gpt-3.5-turbo" then e.gpt35Dep
  else none

/-- Association-list lookup (JavaScript `Map.get` / `redis.get`). -/
def lookupA {β : Type} : List (String × β) → String → Option β
  | [], _ => none
  | (k, v) :: rest, key => if k = key then some v else lookupA rest key

/-- Association-list overwrite (JavaScript `Map.set` / `redis.setex`). -/
def setA {β : Type} (l : List (String × β)) (key : String) (v : β) :
    List (String × β) :=
  (key, v) :: l.filter fun p => !decide (p.1 = key)

/-- `CACHE_TTL` (3600 s). -/
def CACHE_TTL : Nat := 3600

/-- `WALLET_CACHE_TTL` (300 s). -/
def WALLET_CACHE_TTL : Nat := 300

/-- The shared mutable state the route touches: the in-process `walletCache`
Map (apiKey ↦ wallet and insertion timestamp in ms) and the Redis keyspace.
Response-cache entries live under 32-hex digests and wallet snapshots under
`wallet:<apiKey>`; the two key shapes are disjoint, so Redis is split into
two association lists. -/
structure GState where
  walletCache : List (String × Wallet × Nat)
  redisCache : List (String × Completion)
  redisWallet : List (String × Wallet)
deriving DecidableEq

/-- The cache-miss path of `getCachedWallet`: consult the identity store
and, when a wallet is found, store it in the Map with the current
timestamp (a `null` result is not cached). -/
def fetchWallet (e : Env) (st : GState) (apiKey : String) :
    Option Wallet × GState :=
  match e.getWalletByApiKey apiKey with
  | some w =>
    (some w, { st with walletCache := setA st.walletCache apiKey (w, e.nowMs) })
  | none => (none, st)

/-- `getCachedWallet(apiKey)` (route.ts lines 203–217): a Map entry younger
than `WALLET_CACHE_TTL` seconds is returned as is, otherwise the identity
store is consulted. -/
def getCachedWallet (e : Env) (st : GState) (apiKey : String) :
    Option Wallet × GState :=
  match lookupA st.walletCache apiKey with
  | some (w, ts) =>
    if e.nowMs - ts < WALLET_CACHE_TTL * 1000 then (some w, st)
    else fetchWallet e st apiKey
  | none => fetchWallet e st apiKey

/-- The three `Error`s thrown by `validateRequest`. -/
inductive VErr where
  | invalidKey
  | rateLimited
  | invalidModel
deriving DecidableEq

/-- The `message` of each thrown `Error`. -/
def VErr.message : VErr → String
  | VErr.invalidKey => "Invalid API key"
  | VErr.rateLimited => "Rate limit exceeded"
  | VErr.invalidModel => "Invalid model specified"

/-- `validateRequest(apiKey, model)` (route.ts lines 241–263): resolve the
wallet (throwing on an unknown key); the rate-limit check is skipped when
`wallet.userId` is absent/falsy, and a rate-limit rejection is reported
before an unknown model, as in the source. -/
def validateRequest (e : Env) (st : GState) (apiKey model : String) :
    Except VErr (Wallet × String) × GState :=
  match getCachedWallet e st apiKey with
  | (none, st1) => (Except.error VErr.invalidKey, st1)
  | (some wallet, st1) =>
    let rlOk := match wallet.userId with
      | some uid => e.rateLimitOk uid
      | none => true
    if rlOk then
      match MODEL_DEPLOYMENTS e model with
      | some d => (Except.ok (wallet, d), st1)
      | none => (Except.error VErr.invalidModel, st1)
    else (Except.error VErr.rateLimited, st1)

/-- A call to `updateWalletBalance(userId, delta, description)`. -/
inductive Effect where
  | debit (userId : Option String) (delta : Int) (desc : String)
deriving DecidableEq

/-- The JSON body of a response. -/
inductive RespBody where
  | err (msg : String)
  | completed (c : Completion) (cost : Int) (remainingBalance : Int) (cached : Bool)
  | sse (events : List StreamEvent)
deriving DecidableEq

/-- An HTTP response: status plus body. -/
structure HttpOut where
  status : Nat
  body : RespBody
deriving DecidableEq

/-- The observable outcome of one request: the HTTP response, the final
shared state, and the synchronous ledger debits in call order. -/
structure PostResult where
  resp : HttpOut
  state : GState
  debits : List Effect
deriving DecidableEq

/-- JavaScript `error.response?.status || 500` (`0` is falsy). -/
def orFive (s : Option Nat) : Nat :=
  match s with
  | some n => if n = 0 then 500 else n
  | none => 500

/-- JavaScript `error.message || "An internal error occurred"`. -/
def orMsg (m : String) : String :=
  if m = "" then "An internal error occurred" else m

/-- The `POST` handler of route.ts lines 272–414, for a request body already
destructured with its defaults (`model = "gpt-4o"`, `stream = false`).
Thrown `Error`s (unknown key, rate limit, unknown model) land in the final
`catch`, which replies with `error.response?.status || 500` — plain `Error`s
have no `response`, hence status 500.  The streaming branch's debit happens
asynchronously inside its event trace (see `streamTrace`). -/
def POST (e : Env) (st : GState) (apiKey? : Option String)
    (messages : List Message) (model? : Option String)
    (temperature : Option Int) (max_tokens : Option Nat) (stream : Bool) :
    PostResult :=
  match apiKey? with
  | none => ⟨⟨401, RespBody.err "API key is required"⟩, st, []⟩
  | some apiKey =>
    let model := model?.getD "gpt-4o"
    let cacheKey := generateCacheKey e.md5 messages model temperature max_tokens
    match if stream then none else lookupA st.redisCache cacheKey with
    | some parsed =>
      match validateRequest e st apiKey model with
      | (Except.error ve, st1) => ⟨⟨500, RespBody.err (orMsg ve.message)⟩, st1, []⟩
      | (Except.ok (wallet, _d), st1) =>
        let cost := e.calculateCost model parsed.usage.total_tokens
        if wallet.balance < cost then
          ⟨⟨402, RespBody.err "Insufficient funds"⟩, st1, []⟩
        else
          ⟨⟨200, RespBody.completed parsed cost (wallet.balance - cost) true⟩, st1, []⟩
    | none =>
      match validateRequest e st apiKey model with
      | (Except.error ve, st1) => ⟨⟨500, RespBody.err (orMsg ve.message)⟩, st1, []⟩
      | (Except.ok (wallet, _d), st1) =>
        if stream then
          match e.upstreamSSE with
          | Except.error ue =>
            ⟨⟨orFive ue.status, RespBody.err (orMsg ue.message)⟩, st1, []⟩
          | Except.ok chunks =>
            ⟨⟨200, RespBody.sse (streamTrace e.sseParse e.calculateCost model
              wallet.userId chunks)⟩, st1, []⟩
        else
          match e.upstreamJson with
          | Except.error ue =>
            ⟨⟨orFive ue.status, RespBody.err (orMsg ue.message)⟩, st1, []⟩
          | Except.ok completionResponse =>
            let cost := e.calculateCost model completionResponse.usage.total_tokens
            let newWallet : Wallet := { wallet with balance := wallet.balance - cost }
            let st2 := { st1 with redisWallet := setA st1.redisWallet ("wallet:" ++ apiKey) newWallet }
            let st3 := { st2 with redisCache := setA st2.redisCache cacheKey completionResponse }
            ⟨⟨200, RespBody.completed completionResponse cost
                (wallet.balance - cost) false⟩, st3,
              [Effect.debit wallet.userId (-cost)
                ("Chat completion (" ++ model ++ ")")]⟩

/-- Every `updateWalletBalance` call a request performs, including the one
the streaming `end` handler issues asynchronously. -/
def allDebits (r : PostResult) : List Effect :=
  r.debits ++ match r.resp.body with
    | RespBody.sse events =>
      (debitsOf events).filterMap fun ev =>
        match ev with
        | StreamEvent.debitEv u d s => some (Effect.debit u d s)
        | _ => none
    | _ => []

/-! ## Concrete scenario used to evaluate the handler -/

/-- The completion the upstream returns live: 100 total tokens. -/
def liveCompletion : Completion :=
  { payload := "live-completion",
    usage := { prompt_tokens := 60, completion_tokens := 40, total_tokens := 100 } }

/-- The completion stored in the response cache: also 100 total tokens. -/
def cachedCompletion : Completion :=
  { payload := "cached-completion",
    usage := { prompt_tokens := 60, completion_tokens := 40, total_tokens := 100 } }

/-- A concrete environment: one wallet `api-1` with balance 10.000 (10000
thousandths) owned by `user-1`, cost of one thousandth per token, all
deployments configured, a constant digest `k-hit`, upstream returning
`liveCompletion`. -/
def envBase : Env :=
  { md5 := fun _ => "k-hit",
    calculateCost := fun _ tokens => tokens,
    getWalletByApiKey := fun k =>
      if k = "api-1" then some { userId := some "user-1", balance := 10000 } else none,
    rateLimitOk := fun _ => true,
    gpt4Dep := some "dep-gpt4",
    gpt4oDep := some "dep-gpt4o",
    gpt35Dep := some "dep-gpt35",
    upstreamJson := Except.ok liveCompletion,
    upstreamSSE := Except.ok [],
    sseParse := toyParse,
    nowMs := 1000000 }

/-- Empty shared state. -/
def stEmpty : GState := { walletCache := [], redisCache := [], redisWallet := [] }

/-- Shared state whose response cache already holds the request's
fingerprint. -/
def stWithHit : GState :=
  { walletCache := [], redisCache := [("k-hit", cachedCompletion)], redisWallet := [] }

/-- C1 (code bug): a non-streaming request whose fingerprint is cached is
answered with the cached body, a `cost` and a decremented
`remainingBalance` and `cached := true`, yet NO `updateWalletBalance` call
is made — no ledger transaction is created — while the identical request
without the cache entry debits the same cost. -/
theorem claim1_cache_hit_not_billed :
    (POST envBase stWithHit (some "api-1") [] none none none false).resp =
      ⟨200, RespBody.completed cachedCompletion 100 9900 true⟩ ∧
    allDebits (POST envBase stWithHit (some "api-1") [] none none none false) = [] ∧
    allDebits (POST envBase stEmpty (some "api-1") [] none none none false) =
      [Effect.debit (some "user-1") (-100) "Chat completion (gpt-4o)"] := by
  refine ⟨rfl, rfl, rfl⟩

/-- An environment whose wallet holds balance 0.001 while every call costs
1.000 (1000 thousandths). -/
def envPoor : Env :=
  { envBase with
    getWalletByApiKey := fun k =>
      if k = "api-1" then some { userId := some "user-1", balance := 1 } else none,
    calculateCost := fun _ _ => 1000 }

/-- C2 (code bug): on the live non-streaming path the handler never checks
the balance against the cost: with balance 0.001 and cost 1.000 it debits
anyway and answers 200 with a negative `remainingBalance`, where the claim
demands HTTP 402 and no `updateWalletBalance` call. -/
theorem claim2_live_path_debits_when_insufficient :
    (getCachedWallet envPoor stEmpty "api-1").1 =
      some { userId := some "user-1", balance := 1 } ∧
    envPoor.calculateCost "gpt-4o" liveCompletion.usage.total_tokens = 1000 ∧
    (POST envPoor stEmpty (some "api-1") [] none none none false).resp =
      ⟨200, RespBody.completed liveCompletion 1000 (-999) false⟩ ∧
    allDebits (POST envPoor stEmpty (some "api-1") [] none none none false) =
      [Effect.debit (some "user-1") (-1000) "Chat completion (gpt-4o)"] := by
  refine ⟨rfl, rfl, rfl, rfl⟩

/-- C3 (code bug): after a successful live debit the post-debit snapshot is
written only under the Redis key `wallet:api-1`, which no reader ever
consults; `getCachedWallet` reads the in-process Map, so a second request
with the same API key arriving 100 s later — well inside the 300 s TTL —
still reads the PRE-debit balance 10000, not the decremented 9900. -/
theorem claim3_wallet_cache_not_updated_after_debit :
    (POST envBase stEmpty (some "api-1") [] none none none false).debits =
      [Effect.debit (some "user-1") (-100) "Chat completion (gpt-4o)"] ∧
    lookupA (POST envBase stEmpty (some "api-1") [] none none none false).state.redisWallet
        "wallet:api-1" = some { userId := some "user-1", balance := 9900 } ∧
    (getCachedWallet { envBase with nowMs := 1100000 }
        (POST envBase stEmpty (some "api-1") [] none none none false).state "api-1").1 =
      some { userId := some "user-1", balance := 10000 } := by
  refine ⟨rfl, rfl, rfl⟩

/-- C9: after defaulting, two requests with the same `(messages, model,
temperature, max_tokens)` always receive the same fingerprint; and whenever
the digest function is injective on serialisations, any difference in at
least one field — including a numeric temperature versus an absent one —
yields different fingerprints. -/
theorem claim9_fingerprint_determinism {δ : Type} (md5 : SerReq → δ)
    (hinj : Function.Injective md5)
    (m1 m2 : List Message) (mo1 mo2 : String)
    (t1 t2 : Option Int) (x1 x2 : Option Nat) :
    (m1 = m2 ∧ mo1 = mo2 ∧ t1 = t2 ∧ x1 = x2 →
      generateCacheKey md5 m1 mo1 t1 x1 = generateCacheKey md5 m2 mo2 t2 x2) ∧
    (¬(m1 = m2 ∧ mo1 = mo2 ∧ t1 = t2 ∧ x1 = x2) →
      generateCacheKey md5 m1 mo1 t1 x1 ≠ generateCacheKey md5 m2 mo2 t2 x2) := by
  constructor
  · rintro ⟨h1, h2, h3, h4⟩
    rw [h1, h2, h3, h4]
  · intro hne heq
    apply hne
    have h := hinj heq
    simp only [Prod.mk.injEq] at h
    exact ⟨h.1, h.2.1, h.2.2.1, h.2.2.2⟩

/-- Witness for `claim9_fingerprint_determinism`: with the identity digest,
a request with `temperature = 1` and one with no temperature at all get
different fingerprints. -/
theorem claim9_fingerprint_determinism_witness :
    ¬(([] : List Message) = [] ∧ "gpt-4o" = "gpt-4o" ∧
        (some 1 : Option Int) = none ∧ (none : Option Nat) = none) ∧
      generateCacheKey (fun s : SerReq => s) [] "gpt-4o" (some 1) none ≠
        generateCacheKey (fun s : SerReq => s) [] "gpt-4o" none none :=
  ⟨by simp, (claim9_fingerprint_determinism (fun s : SerReq => s)
      (fun _ _ h => h) [] [] "gpt-4o" "gpt-4o" (some 1) none none none).2 (by simp)⟩

/-! ## Branch lemmas for the handler -/

/-- When `validateRequest` throws, every path of the handler lands in the
final catch, replying 500 with the error's message. -/
theorem POST_validate_error (e : Env) (st : GState) (apiKey : String)
    (messages : List Message) (model? : Option String) (temperature : Option Int)
    (max_tokens : Option Nat) (stream : Bool) (ve : VErr) (st1 : GState)
    (hv : validateRequest e st apiKey (model?.getD "gpt-4o") = (Except.error ve, st1)) :
    POST e st (some apiKey) messages model? temperature max_tokens stream =
      ⟨⟨500, RespBody.err (orMsg ve.message)⟩, st1, []⟩ := by
  simp only [POST]
  cases stream with
  | true =>
    rw [hv]
    rfl
  | false =>
    cases hhit : lookupA st.redisCache
        (generateCacheKey e.md5 messages (model?.getD "gpt-4o") temperature max_tokens) with
    | some parsed =>
      rw [hv]
      rfl
    | none =>
      rw [hv]
      rfl

/-- The cache-hit branch: metering plus sufficiency check against the cached
usage, no debit and no state write in either outcome. -/
theorem POST_cache_hit (e : Env) (st : GState) (apiKey : String)
    (messages : List Message) (model? : Option String) (temperature : Option Int)
    (max_tokens : Option Nat) (parsed : Completion) (wallet : Wallet)
    (d : String) (st1 : GState)
    (hhit : lookupA st.redisCache (generateCacheKey e.md5 messages
      (model?.getD "gpt-4o") temperature max_tokens) = some parsed)
    (hv : validateRequest e st apiKey (model?.getD "gpt-4o") =
      (Except.ok (wallet, d), st1)) :
    POST e st (some apiKey) messages model? temperature max_tokens false =
      if wallet.balance < e.calculateCost (model?.getD "gpt-4o")
          parsed.usage.total_tokens then
        ⟨⟨402, RespBody.err "Insufficient funds"⟩, st1, []⟩
      else
        ⟨⟨200, RespBody.completed parsed
            (e.calculateCost (model?.getD "gpt-4o") parsed.usage.total_tokens)
            (wallet.balance - e.calculateCost (model?.getD "gpt-4o")
              parsed.usage.total_tokens) true⟩, st1, []⟩ := by
  simp only [POST]
  rw [hhit, hv]
  rfl

/-- The streaming branch with a live upstream stream. -/
theorem POST_stream_ok (e : Env) (st : GState) (apiKey : String)
    (messages : List Message) (model? : Option String) (temperature : Option Int)
    (max_tokens : Option Nat) (wallet : Wallet) (d : String) (st1 : GState)
    (chunks : List (List Char))
    (hv : validateRequest e st apiKey (model?.getD "gpt-4o") =
      (Except.ok (wallet, d), st1))
    (hu : e.upstreamSSE = Except.ok chunks) :
    POST e st (some apiKey) messages model? temperature max_tokens true =
      ⟨⟨200, RespBody.sse (streamTrace e.sseParse e.calculateCost
          (model?.getD "gpt-4o") wallet.userId chunks)⟩, st1, []⟩ := by
  simp only [POST]
  rw [hv, hu]
  rfl

/-- The streaming branch when the upstream call throws. -/
theorem POST_stream_err (e : Env) (st : GState) (apiKey : String)
    (messages : List Message) (model? : Option String) (temperature : Option Int)
    (max_tokens : Option Nat) (wallet : Wallet) (d : String) (st1 : GState)
    (ue : UpErr)
    (hv : validateRequest e st apiKey (model?.getD "gpt-4o") =
      (Except.ok (wallet, d), st1))
    (hu : e.upstreamSSE = Except.error ue) :
    POST e st (some apiKey) messages model? temperature max_tokens true =
      ⟨⟨orFive ue.status, RespBody.err (orMsg ue.message)⟩, st1, []⟩ := by
  simp only [POST]
  rw [hv, hu]
  rfl

/-- The live non-streaming branch on upstream success: unconditional debit,
wallet snapshot written to Redis, response cached. -/
theorem POST_live_ok (e : Env) (st : GState) (apiKey : String)
    (messages : List Message) (model? : Option String) (temperature : Option Int)
    (max_tokens : Option Nat) (wallet : Wallet) (d : String) (st1 : GState)
    (c : Completion)
    (hhit : lookupA st.redisCache (generateCacheKey e.md5 messages
      (model?.getD "gpt-4o") temperature max_tokens) = none)
    (hv : validateRequest e st apiKey (model?.getD "gpt-4o") =
      (Except.ok (wallet, d), st1))
    (hu : e.upstreamJson = Except.ok c) :
    POST e st (some apiKey) messages model? temperature max_tokens false =
      ⟨⟨200, RespBody.completed c
          (e.calculateCost (model?.getD "gpt-4o") c.usage.total_tokens)
          (wallet.balance - e.calculateCost (model?.getD "gpt-4o")
            c.usage.total_tokens) false⟩,
        { walletCache := st1.walletCache,
          redisCache := setA st1.redisCache (generateCacheKey e.md5 messages
            (model?.getD "gpt-4o") temperature max_tokens) c,
          redisWallet := setA st1.redisWallet ("wallet:" ++ apiKey)
            { wallet with balance := wallet.balance -
                e.calculateCost (model?.getD "gpt-4o") c.usage.total_tokens } },
        [Effect.debit wallet.userId
          (-(e.calculateCost (model?.getD "gpt-4o") c.usage.total_tokens))
          ("Chat completion (" ++ model?.getD "gpt-4o" ++ ")")]⟩ := by
  simp only [POST]
  rw [hhit, hv, hu]
  rfl

/-- The live non-streaming branch when the upstream call throws. -/
theorem POST_live_err (e : Env) (st : GState) (apiKey : String)
    (messages : List Message) (model? : Option String) (temperature : Option Int)
    (max_tokens : Option Nat) (wallet : Wallet) (d : String) (st1 : GState)
    (ue : UpErr)
    (hhit : lookupA st.redisCache (generateCacheKey e.md5 messages
      (model?.getD "gpt-4o") temperature max_tokens) = none)
    (hv : validateRequest e st apiKey (model?.getD "gpt-4o") =
      (Except.ok (wallet, d), st1))
    (hu : e.upstreamJson = Except.error ue) :
    POST e st (some apiKey) messages model? temperature max_tokens false =
      ⟨⟨orFive ue.status, RespBody.err (orMsg ue.message)⟩, st1, []⟩ := by
  simp only [POST]
  rw [hhit, hv, hu]
  rfl

/-- `validateRequest` throws `Invalid API key` when the wallet cannot be
resolved. -/
theorem validateRequest_invalidKey (e : Env) (st : GState) (k model : String)
    (hgw : (getCachedWallet e st k).1 = none) :
    validateRequest e st k model =
      (Except.error VErr.invalidKey, (getCachedWallet e st k).2) := by
  unfold validateRequest
  rcases hg : getCachedWallet e st k with ⟨w?, st1⟩
  rw [hg] at hgw
  cases w? with
  | none => rfl
  | some w => exact absurd hgw (by simp)

/-- `validateRequest` throws `Rate limit exceeded` when the wallet names an
account whose rate-limit check fails. -/
theorem validateRequest_rateLimited (e : Env) (st : GState) (k model u : String)
    (w : Wallet) (hgw : (getCachedWallet e st k).1 = some w)
    (hu : w.userId = some u) (hrl : e.rateLimitOk u = false) :
    validateRequest e st k model =
      (Except.error VErr.rateLimited, (getCachedWallet e st k).2) := by
  unfold validateRequest
  rcases hg : getCachedWallet e st k with ⟨w?, st1⟩
  rw [hg] at hgw
  cases w? with
  | none => exact absurd hgw (by simp)
  | some w' =>
    have hww : w' = w := by simpa using hgw
    subst hww
    dsimp only
    simp [hu, hrl]

/-- `validateRequest` throws `Invalid model specified` when the rate check
passes but the model has no deployment. -/
theorem validateRequest_invalidModel (e : Env) (st : GState) (k model : String)
    (w : Wallet) (hgw : (getCachedWallet e st k).1 = some w)
    (hok : (match w.userId with
      | some u => e.rateLimitOk u
      | none => true) = true)
    (hd : MODEL_DEPLOYMENTS e model = none) :
    validateRequest e st k model =
      (Except.error VErr.invalidModel, (getCachedWallet e st k).2) := by
  unfold validateRequest
  rcases hg : getCachedWallet e st k with ⟨w?, st1⟩
  rw [hg] at hgw
  cases w? with
  | none => exact absurd hgw (by simp)
  | some w' =>
    have hww : w' = w := by simpa using hgw
    subst hww
    dsimp only
    simp [hok, hd]

/-- Enumeration of every response the handler can produce: 401 only for a
missing key; 500 with a thrown validation message; 402 only from the
cache-hit sufficiency check; 200; or an upstream failure surfaced with
`error.response?.status || 500`. -/
theorem POST_status_cases (e : Env) (st : GState) (apiKey? : Option String)
    (messages : List Message) (model? : Option String) (temperature : Option Int)
    (max_tokens : Option Nat) (stream : Bool) :
    ((POST e st apiKey? messages model? temperature max_tokens stream).resp =
        ⟨401, RespBody.err "API key is required"⟩ ∧ apiKey? = none) ∨
    (∃ ve, (POST e st apiKey? messages model? temperature max_tokens stream).resp =
        ⟨500, RespBody.err (orMsg (VErr.message ve))⟩) ∨
    ((POST e st apiKey? messages model? temperature max_tokens stream).resp =
        ⟨402, RespBody.err "Insufficient funds"⟩ ∧ stream = false ∧
      ∃ k parsed wallet d st1, apiKey? = some k ∧
        lookupA st.redisCache (generateCacheKey e.md5 messages
          (model?.getD "gpt-4o") temperature max_tokens) = some parsed ∧
        validateRequest e st k (model?.getD "gpt-4o") = (Except.ok (wallet, d), st1) ∧
        wallet.balance < e.calculateCost (model?.getD "gpt-4o")
          parsed.usage.total_tokens) ∨
    ((POST e st apiKey? messages model? temperature max_tokens stream).resp.status = 200) ∨
    (∃ ue, (e.upstreamJson = Except.error ue ∨ e.upstreamSSE = Except.error ue) ∧
      (POST e st apiKey? messages model? temperature max_tokens stream).resp =
        ⟨orFive ue.status, RespBody.err (orMsg ue.message)⟩) := by
  cases apiKey? with
  | none => exact Or.inl ⟨rfl, rfl⟩
  | some k =>
    rcases hv : validateRequest e st k (model?.getD "gpt-4o") with ⟨res, st1⟩
    cases res with
    | error ve =>
      refine Or.inr (Or.inl ⟨ve, ?_⟩)
      rw [POST_validate_error e st k messages model? temperature max_tokens stream ve st1 hv]
    | ok wd =>
      rcases wd with ⟨wallet, d⟩
      cases stream with
      | true =>
        cases hu : e.upstreamSSE with
        | error ue =>
          refine Or.inr (Or.inr (Or.inr (Or.inr ⟨ue, Or.inr rfl, ?_⟩)))
          rw [POST_stream_err e st k messages model? temperature max_tokens
            wallet d st1 ue hv hu]
        | ok chunks =>
          refine Or.inr (Or.inr (Or.inr (Or.inl ?_)))
          rw [POST_stream_ok e st k messages model? temperature max_tokens
            wallet d st1 chunks hv hu]
      | false =>
        cases hhit : lookupA st.redisCache (generateCacheKey e.md5 messages
            (model?.getD "gpt-4o") temperature max_tokens) with
        | some parsed =>
          by_cases hb : wallet.balance < e.calculateCost (model?.getD "gpt-4o")
              parsed.usage.total_tokens
          · refine Or.inr (Or.inr (Or.inl ⟨?_, rfl, k, parsed, wallet, d, st1,
              rfl, rfl, hv, hb⟩))
            rw [POST_cache_hit e st k messages model? temperature max_tokens
              parsed wallet d st1 hhit hv, if_pos hb]
          · refine Or.inr (Or.inr (Or.inr (Or.inl ?_)))
            rw [POST_cache_hit e st k messages model? temperature max_tokens
              parsed wallet d st1 hhit hv, if_neg hb]
        | none =>
          cases hu : e.upstreamJson with
          | error ue =>
            refine Or.inr (Or.inr (Or.inr (Or.inr ⟨ue, Or.inl rfl, ?_⟩)))
            rw [POST_live_err e st k messages model? temperature max_tokens
              wallet d st1 ue hhit hv hu]
          | ok c =>
            refine Or.inr (Or.inr (Or.inr (Or.inl ?_)))
            rw [POST_live_ok e st k messages model? temperature max_tokens
              wallet d st1 c hhit hv hu]

/-- C4 counterexample: an invalid API key is answered 500 (the claim says
401), a rate-limited request 500 (the claim says 429), and an unmapped model
500 (the claim says 400) — `validateRequest` throws plain `Error`s and the
final catch replies `error.response?.status || 500`. -/
theorem claim4_counterexample :
    (POST envBase stEmpty (some "bad-key") [] none none none false).resp =
      ⟨500, RespBody.err "Invalid API key"⟩ ∧
    (POST { envBase with rateLimitOk := fun _ => false } stEmpty (some "api-1")
        [] none none none false).resp =
      ⟨500, RespBody.err "Rate limit exceeded"⟩ ∧
    (POST envBase stEmpty (some "api-1") [] (some "o1-mini") none none false).resp =
      ⟨500, RespBody.err "Invalid model specified"⟩ ∧
    (500 : Nat) ≠ 401 ∧ (500 : Nat) ≠ 429 ∧ (500 : Nat) ≠ 400 :=
  ⟨rfl, rfl, rfl, by decide, by decide, by decide⟩

/-- C4 (amended): every error response is a JSON `{error: string}` body.
The statuses actually produced are: 401 for a missing API key; 500 for an
invalid API key, a rate-limited request and an invalid (unmapped) model
(their thrown `Error`s land in the generic catch); a handler-issued 402 only
for the cache-hit insufficient-funds check; and otherwise 200 or an upstream
failure surfaced with the upstream's status when present, else 500. -/
theorem claim4_error_statuses (e : Env) (st : GState) (apiKey? : Option String)
    (messages : List Message) (model? : Option String) (temperature : Option Int)
    (max_tokens : Option Nat) (stream : Bool) :
    ((POST e st apiKey? messages model? temperature max_tokens stream).resp.status ≠ 200 →
      ∃ s, (POST e st apiKey? messages model? temperature max_tokens stream).resp.body =
        RespBody.err s) ∧
    (apiKey? = none →
      (POST e st apiKey? messages model? temperature max_tokens stream).resp =
        ⟨401, RespBody.err "API key is required"⟩) ∧
    (∀ k, apiKey? = some k → (getCachedWallet e st k).1 = none →
      (POST e st apiKey? messages model? temperature max_tokens stream).resp =
        ⟨500, RespBody.err "Invalid API key"⟩) ∧
    (∀ k w u, apiKey? = some k → (getCachedWallet e st k).1 = some w →
      w.userId = some u → e.rateLimitOk u = false →
      (POST e st apiKey? messages model? temperature max_tokens stream).resp =
        ⟨500, RespBody.err "Rate limit exceeded"⟩) ∧
    (∀ k w, apiKey? = some k → (getCachedWallet e st k).1 = some w →
      (match w.userId with
        | some u => e.rateLimitOk u
        | none => true) = true →
      MODEL_DEPLOYMENTS e (model?.getD "gpt-4o") = none →
      (POST e st apiKey? messages model? temperature max_tokens stream).resp =
        ⟨500, RespBody.err "Invalid model specified"⟩) ∧
    ((POST e st apiKey? messages model? temperature max_tokens stream).resp.status = 402 →
      (stream = false ∧ ∃ k parsed wallet d st1, apiKey? = some k ∧
        lookupA st.redisCache (generateCacheKey e.md5 messages
          (model?.getD "gpt-4o") temperature max_tokens) = some parsed ∧
        validateRequest e st k (model?.getD "gpt-4o") = (Except.ok (wallet, d), st1) ∧
        wallet.balance < e.calculateCost (model?.getD "gpt-4o")
          parsed.usage.total_tokens) ∨
      (∃ ue, (e.upstreamJson = Except.error ue ∨ e.upstreamSSE = Except.error ue) ∧
        orFive ue.status = 402)) ∧
    ((POST e st apiKey? messages model? temperature max_tokens stream).resp.status = 200 ∨
      (POST e st apiKey? messages model? temperature max_tokens stream).resp.status = 401 ∨
      (POST e st apiKey? messages model? temperature max_tokens stream).resp.status = 402 ∨
      (POST e st apiKey? messages model? temperature max_tokens stream).resp.status = 500 ∨
      (∃ ue, (e.upstreamJson = Except.error ue ∨ e.upstreamSSE = Except.error ue) ∧
        (POST e st apiKey? messages model? temperature max_tokens stream).resp.status =
          orFive ue.status)) := by
  refine ⟨?_, ?_, ?_, ?_, ?_, ?_, ?_⟩
  · intro hne
    rcases POST_status_cases e st apiKey? messages model? temperature max_tokens stream with
      ⟨h, _⟩ | ⟨ve, h⟩ | ⟨h, _⟩ | h | ⟨ue, _, h⟩
    · exact ⟨"API key is required", by rw [h]⟩
    · exact ⟨orMsg (VErr.message ve), by rw [h]⟩
    · exact ⟨"Insufficient funds", by rw [h]⟩
    · exact absurd h hne
    · exact ⟨orMsg ue.message, by rw [h]⟩
  · intro h
    subst h
    rfl
  · intro k hk hgw
    subst hk
    rw [POST_validate_error e st k messages model? temperature max_tokens stream
      VErr.invalidKey (getCachedWallet e st k).2
      (validateRequest_invalidKey e st k (model?.getD "gpt-4o") hgw)]
    rfl
  · intro k w u hk hgw hu hrl
    subst hk
    rw [POST_validate_error e st k messages model? temperature max_tokens stream
      VErr.rateLimited (getCachedWallet e st k).2
      (validateRequest_rateLimited e st k (model?.getD "gpt-4o") u w hgw hu hrl)]
    rfl
  · intro k w hk hgw hok hd
    subst hk
    rw [POST_validate_error e st k messages model? temperature max_tokens stream
      VErr.invalidModel (getCachedWallet e st k).2
      (validateRequest_invalidModel e st k (model?.getD "gpt-4o") w hgw hok hd)]
    rfl
  · intro h402
    rcases POST_status_cases e st apiKey? messages model? temperature max_tokens stream with
      ⟨h, _⟩ | ⟨ve, h⟩ | ⟨h, hs, hrest⟩ | h | ⟨ue, hup, h⟩
    · rw [h] at h402
      exact absurd h402 (by simp)
    · rw [h] at h402
      exact absurd h402 (by simp)
    · exact Or.inl ⟨hs, hrest⟩
    · rw [h] at h402
      exact absurd h402 (by simp)
    · refine Or.inr ⟨ue, hup, ?_⟩
      rw [h] at h402
      exact h402
  · rcases POST_status_cases e st apiKey? messages model? temperature max_tokens stream with
      ⟨h, _⟩ | ⟨ve, h⟩ | ⟨h, _⟩ | h | ⟨ue, hup, h⟩
    · exact Or.inr (Or.inl (by rw [h]))
    · exact Or.inr (Or.inr (Or.inr (Or.inl (by rw [h]))))
    · exact Or.inr (Or.inr (Or.inl (by rw [h])))
    · exact Or.inl h
    · exact Or.inr (Or.inr (Or.inr (Or.inr ⟨ue, hup, by rw [h]⟩)))

/-- Witness for `claim4_error_statuses`: the rate-limited clause evaluated
at a concrete environment whose limiter rejects. -/
theorem claim4_error_statuses_witness :
    (POST { envBase with rateLimitOk := fun _ => false } stEmpty (some "api-1")
        [] none none none false).resp =
      ⟨500, RespBody.err "Rate limit exceeded"⟩ :=
  (claim4_error_statuses { envBase with rateLimitOk := fun _ => false } stEmpty
      (some "api-1") [] none none none false).2.2.2.1 "api-1"
    { userId := some "user-1", balance := 10000 } "user-1" rfl rfl rfl rfl

/-- When the resolved wallet has no `userId`, `validateRequest` does not
depend on the rate-limit oracle: line 250 short-circuits to
`{ success: true }` without calling `rateLimit`. -/
theorem validateRequest_oracle_free (e : Env) (st : GState) (apiKey model : String)
    (w : Wallet) (f : String → Bool)
    (hw : (getCachedWallet e st apiKey).1 = some w) (hu : w.userId = none) :
    validateRequest { e with rateLimitOk := f } st apiKey model =
      validateRequest e st apiKey model := by
  have hg : getCachedWallet { e with rateLimitOk := f } st apiKey =
      getCachedWallet e st apiKey := rfl
  unfold validateRequest
  rw [hg]
  rcases hgc : getCachedWallet e st apiKey with ⟨w?, st1⟩
  rw [hgc] at hw
  cases w? with
  | none => simp at hw
  | some w' =>
    have hww : w' = w := by simpa using hw
    subst hww
    dsimp only
    simp only [hu]
    rfl

/-- When the resolved wallet has no `userId`, the whole handler does not
depend on the rate-limit oracle. -/
theorem POST_oracle_free (e : Env) (st : GState) (apiKey : String)
    (messages : List Message) (model? : Option String) (temperature : Option Int)
    (max_tokens : Option Nat) (stream : Bool) (w : Wallet) (f : String → Bool)
    (hw : (getCachedWallet e st apiKey).1 = some w) (hu : w.userId = none) :
    POST { e with rateLimitOk := f } st (some apiKey) messages model?
        temperature max_tokens stream =
      POST e st (some apiKey) messages model? temperature max_tokens stream := by
  have hv := validateRequest_oracle_free e st apiKey (model?.getD "gpt-4o") w f hw hu
  simp only [POST]
  rw [hv]

/-- The handler itself never issues HTTP 429: a rate-limit rejection is
thrown and caught as a generic 500; the hypotheses exclude only a 429 echoed
verbatim from an upstream failure status. -/
theorem POST_never_own_429 (e : Env) (st : GState) (apiKey? : Option String)
    (messages : List Message) (model? : Option String) (temperature : Option Int)
    (max_tokens : Option Nat) (stream : Bool)
    (hj : ∀ ue, e.upstreamJson = Except.error ue → orFive ue.status ≠ 429)
    (hs : ∀ ue, e.upstreamSSE = Except.error ue → orFive ue.status ≠ 429) :
    (POST e st apiKey? messages model? temperature max_tokens stream).resp.status ≠ 429 := by
  rcases POST_status_cases e st apiKey? messages model? temperature max_tokens stream with
    ⟨h, _⟩ | ⟨ve, h⟩ | ⟨h, _⟩ | h | ⟨ue, hup, h⟩
  · rw [h]; simp
  · rw [h]; simp
  · rw [h]; simp
  · rw [h]; simp
  · rw [h]
    rcases hup with hje | hse
    · exact hj ue hje
    · exact hs ue hse

/-- C10: for a request whose wallet record has no `userId` (absent or falsy),
the rate limiter is never consulted — the handler's outcome is the same for
every rate-limit oracle — and the request is never rejected with HTTP 429
(the handler never produces its own 429; the last two hypotheses exclude a
429 echoed verbatim from an upstream failure). -/
theorem claim10_no_userid_never_rate_limited (e : Env) (st : GState)
    (apiKey : String) (messages : List Message) (model? : Option String)
    (temperature : Option Int) (max_tokens : Option Nat) (stream : Bool)
    (w : Wallet) (hw : (getCachedWallet e st apiKey).1 = some w)
    (hu : w.userId = none) (f g : String → Bool)
    (hj : ∀ ue, e.upstreamJson = Except.error ue → orFive ue.status ≠ 429)
    (hs : ∀ ue, e.upstreamSSE = Except.error ue → orFive ue.status ≠ 429) :
    POST { e with rateLimitOk := f } st (some apiKey) messages model?
        temperature max_tokens stream =
      POST { e with rateLimitOk := g } st (some apiKey) messages model?
        temperature max_tokens stream ∧
    (POST e st (some apiKey) messages model? temperature max_tokens stream).resp.status ≠ 429 := by
  constructor
  · rw [POST_oracle_free e st apiKey messages model? temperature max_tokens stream w f hw hu,
      POST_oracle_free e st apiKey messages model? temperature max_tokens stream w g hw hu]
  · exact POST_never_own_429 e st (some apiKey) messages model? temperature
      max_tokens stream hj hs

/-- An environment whose wallet for `api-1` has no `userId`. -/
def envNoUser : Env :=
  { envBase with
    getWalletByApiKey := fun k =>
      if k = "api-1" then some { userId := none, balance := 10000 } else none }

/-- Witness for `claim10_no_userid_never_rate_limited` at a concrete wallet
without `userId` and two oracles that always accept and always reject. -/
theorem claim10_no_userid_never_rate_limited_witness :
    (getCachedWallet envNoUser stEmpty "api-1").1 =
      some { userId := none, balance := 10000 } ∧
    (POST { envNoUser with rateLimitOk := fun _ => true } stEmpty (some "api-1")
        [] none none none false =
      POST { envNoUser with rateLimitOk := fun _ => false } stEmpty (some "api-1")
        [] none none none false ∧
    (POST envNoUser stEmpty (some "api-1") [] none none none false).resp.status ≠ 429) :=
  ⟨rfl, claim10_no_userid_never_rate_limited envNoUser stEmpty "api-1" [] none
    none none false { userId := none, balance := 10000 } rfl rfl
    (fun _ => true) (fun _ => false)
    (by intro ue h; simp [envNoUser, envBase] at h)
    (by intro ue h; simp [envNoUser, envBase] at h)⟩

end ChargeAI
